import Mathlib

/-!
Shallow embedding of the TeslaMate query service (`teslamate_api.py`) and its
conversational client (`teslamate_tool.py`).

Python strings are modelled as `List Char`; Python `float` distances and the
journal arithmetic are modelled over `ℚ` (the source only ever combines
decimal literals, sums and `round`, so exact rational arithmetic is the
faithful idealisation; binary-float artifacts are not modelled).
`random.uniform` draws are passed in as explicit parameters so that theorems
can quantify over every possible outcome of the draws.
-/

namespace TeslaMate

/-! ### Characters and Python string helpers -/

/-- Whitespace as stripped by Python `str.strip()` (the ASCII cases; the
source never feeds other Unicode whitespace). -/
def isSpace (c : Char) : Bool :=
  c = ' ' || c = '\t' || c = '\n' || c = '\r'

/-- Python `str.strip()`. -/
def pytrim (l : List Char) : List Char :=
  ((l.dropWhile isSpace).reverse.dropWhile isSpace).reverse

/-- Python `str.lower()` on the alphabet actually used by the source:
ASCII letters plus the Swedish letters appearing in the keyword tables. -/
def toLowerChar (c : Char) : Char :=
  if 'A' ≤ c ∧ c ≤ 'Z' then Char.ofNat (c.toNat + 32)
  else if c = 'Å' then 'å'
  else if c = 'Ä' then 'ä'
  else if c = 'Ö' then 'ö'
  else c

/-- Python `str.lower()`. -/
def pylower (l : List Char) : List Char := l.map toLowerChar

/-- Numeric value of a decimal digit character. -/
def digitVal (c : Char) : ℕ := c.toNat - 48

/-- Tests whether `pat` occurs as a prefix of `l` (used for Python's substring test). -/
def startsWithList : List Char → List Char → Bool
  | [], _ => true
  | _ :: _, [] => false
  | p :: ps, c :: cs => p = c && startsWithList ps cs

/-- Python's `pat in l` substring containment test. -/
def containsSub (pat : List Char) : List Char → Bool
  | [] => startsWithList pat []
  | c :: cs => startsWithList pat (c :: cs) || containsSub pat cs

/-! ### Dates

Python `datetime.date` restricted to what the source uses: a
year/month/day triple (`MINYEAR = 1`, `MAXYEAR = 9999`). -/

structure Date where
  year : ℕ
  month : ℕ
  day : ℕ
deriving DecidableEq, Repr

/-- Gregorian leap year, as in `calendar.isleap`. -/
def isLeap (y : ℕ) : Bool :=
  (y % 4 = 0 && !(y % 100 = 0)) || y % 400 = 0

/-- Days in a month. -/
def daysInMonth (y m : ℕ) : ℕ :=
  if m = 2 then (if isLeap y then 29 else 28)
  else if m = 4 ∨ m = 6 ∨ m = 9 ∨ m = 11 then 30
  else 31

/-- The range check done by the `datetime.date` constructor. -/
def Valid (d : Date) : Prop :=
  1 ≤ d.year ∧ d.year ≤ 9999 ∧ 1 ≤ d.month ∧ d.month ≤ 12 ∧
    1 ≤ d.day ∧ d.day ≤ daysInMonth d.year d.month

instance : DecidablePred Valid := fun d => by unfold Valid; infer_instance

/-- Two-digit zero-padded rendering (months and days are < 100). -/
def pad2 (n : ℕ) : List Char :=
  [Nat.digitChar (n / 10 % 10), Nat.digitChar (n % 10)]

/-- Four-digit zero-padded rendering (`datetime` years are ≤ 9999). -/
def pad4 (n : ℕ) : List Char :=
  [Nat.digitChar (n / 1000 % 10), Nat.digitChar (n / 100 % 10),
   Nat.digitChar (n / 10 % 10), Nat.digitChar (n % 10)]

/-- Python `date.isoformat()` / `strftime("%Y-%m-%d")`. -/
def isoformat (d : Date) : List Char :=
  pad4 d.year ++ ('-' :: (pad2 d.month ++ ('-' :: pad2 d.day)))

/-- Python `d - timedelta(days=1)`. -/
def prevDay (t : Date) : Date :=
  if 1 < t.day then ⟨t.year, t.month, t.day - 1⟩
  else if 1 < t.month then ⟨t.year, t.month - 1, daysInMonth t.year (t.month - 1)⟩
  else ⟨t.year - 1, 12, 31⟩

/-- Python `d - timedelta(days=n)`. -/
def subDays (t : Date) : ℕ → Date
  | 0 => t
  | n + 1 => prevDay (subDays t n)

/-- Python `today.replace(day=1) - timedelta(days=1)` then `.replace(day=1)`:
the first day of the month preceding `t`'s month. -/
def firstOfPrevMonth (t : Date) : Date :=
  let last_prev := prevDay ⟨t.year, t.month, 1⟩
  ⟨last_prev.year, last_prev.month, 1⟩

/-! ### `datetime.strptime` for the four formats tried by `_parse_date`

CPython compiles each format directive to a regex group and matches the
whole pattern with ordered alternation and backtracking, then checks that
the entire string was consumed, and only then builds the `datetime`
(which range-checks the triple).  Each component parser below returns its
possible (value, rest) splits in the regex's preference order, and the
drivers take the first full parse, which reproduces that behaviour. -/

/-- Directive `%Y`: exactly four digits. -/
def yearSplits : List Char → List (ℕ × List Char)
  | c1 :: c2 :: c3 :: c4 :: rest =>
    if c1.isDigit && c2.isDigit && c3.isDigit && c4.isDigit then
      [(1000 * digitVal c1 + 100 * digitVal c2 + 10 * digitVal c3 + digitVal c4, rest)]
    else []
  | _ => []

/-- Directive `%m`: the regex `1[0-2]|0[1-9]|[1-9]`, alternatives in order. -/
def monthSplits : List Char → List (ℕ × List Char)
  | c1 :: c2 :: rest =>
    (if c1 = '1' && ('0' ≤ c2 && c2 ≤ '2') then [(10 + digitVal c2, rest)] else []) ++
    (if c1 = '0' && ('1' ≤ c2 && c2 ≤ '9') then [(digitVal c2, rest)] else []) ++
    (if '1' ≤ c1 && c1 ≤ '9' then [(digitVal c1, c2 :: rest)] else [])
  | [c1] => if '1' ≤ c1 && c1 ≤ '9' then [(digitVal c1, [])] else []
  | [] => []

/-- Directive `%d`: the regex `3[01]|[12]\d|0[1-9]|[1-9]`, alternatives in order. -/
def daySplits : List Char → List (ℕ × List Char)
  | c1 :: c2 :: rest =>
    (if c1 = '3' && (c2 = '0' || c2 = '1') then [(30 + digitVal c2, rest)] else []) ++
    (if (c1 = '1' || c1 = '2') && c2.isDigit then [(10 * digitVal c1 + digitVal c2, rest)] else []) ++
    (if c1 = '0' && ('1' ≤ c2 && c2 ≤ '9') then [(digitVal c2, rest)] else []) ++
    (if '1' ≤ c1 && c1 ≤ '9' then [(digitVal c1, c2 :: rest)] else [])
  | [c1] => if '1' ≤ c1 && c1 ≤ '9' then [(digitVal c1, [])] else []
  | [] => []

/-- A literal separator character. -/
def sepSplits (sep : Char) : List Char → List (List Char)
  | c :: rest => if c = sep then [rest] else []
  | [] => []

/-- The `datetime.date` constructor: range-checks year/month/day. -/
def mkDate (y m d : ℕ) : Option Date :=
  if 1 ≤ y ∧ y ≤ 9999 ∧ 1 ≤ m ∧ m ≤ 12 ∧ 1 ≤ d ∧ d ≤ daysInMonth y m then
    some ⟨y, m, d⟩
  else none

/-- Python `strptime` with format `%Y<sep>%m<sep>%d`. -/
def strptimeYmd (sep : Char) (l : List Char) : Option Date :=
  (yearSplits l).findSome? fun yr =>
    (sepSplits sep yr.2).findSome? fun r2 =>
      (monthSplits r2).findSome? fun mr =>
        (sepSplits sep mr.2).findSome? fun r4 =>
          (daySplits r4).findSome? fun dr =>
            if dr.2 = [] then mkDate yr.1 mr.1 dr.1 else none

/-- Python `strptime` with format `%d<sep>%m<sep>%Y`. -/
def strptimeDmy (sep : Char) (l : List Char) : Option Date :=
  (daySplits l).findSome? fun dr =>
    (sepSplits sep dr.2).findSome? fun r2 =>
      (monthSplits r2).findSome? fun mr =>
        (sepSplits sep mr.2).findSome? fun r4 =>
          (yearSplits r4).findSome? fun yr =>
            if yr.2 = [] then mkDate yr.1 mr.1 dr.1 else none

/-- Python `strptime` with format `%Y%m%d`. -/
def strptimeYmdCompact (l : List Char) : Option Date :=
  (yearSplits l).findSome? fun yr =>
    (monthSplits yr.2).findSome? fun mr =>
      (daySplits mr.2).findSome? fun dr =>
        if dr.2 = [] then mkDate yr.1 mr.1 dr.1 else none

/-- The `for fmt in ("%Y-%m-%d", "%d/%m/%Y", "%d-%m-%Y", "%Y%m%d")` loop:
first successful parse wins. -/
def tryFormats (l : List Char) : Option Date :=
  match strptimeYmd '-' l with
  | some d => some d
  | none =>
    match strptimeDmy '/' l with
    | some d => some d
    | none =>
      match strptimeDmy '-' l with
      | some d => some d
      | none => strptimeYmdCompact l

/-- The `swedish_months` table, in insertion order. -/
def swedishMonths : List (List Char × ℕ) :=
  [("januari".data, 1), ("februari".data, 2), ("mars".data, 3), ("april".data, 4),
   ("maj".data, 5), ("juni".data, 6), ("juli".data, 7), ("augusti".data, 8),
   ("september".data, 9), ("oktober".data, 10), ("november".data, 11), ("december".data, 12)]

/-- The resolver `Tools._parse_date` from `teslamate_tool.py`, with the reference
`date.today()` passed explicitly. -/
def parse_date (s : List Char) (today : Date) : List Char :=
  if pytrim s = [] then isoformat today
  else if pylower (pytrim s) ∈ ["idag".data, "today".data] then isoformat today
  else if pylower (pytrim s) ∈ ["igår".data, "yesterday".data] then
    isoformat (prevDay today)
  else if pylower (pytrim s) ∈
      ["senaste veckan".data, "last week".data, "förra veckan".data,
       "denna vecka".data, "this week".data] then
    isoformat (subDays today 7)
  else if pylower (pytrim s) ∈
      ["senaste månaden".data, "last month".data, "denna månad".data,
       "this month".data, "denna månaden".data] then
    isoformat ⟨today.year, today.month, 1⟩
  else if pylower (pytrim s) ∈ ["förra månaden".data, "previous month".data] then
    isoformat (firstOfPrevMonth today)
  else if pylower (pytrim s) ∈
      ["i år".data, "this year".data, "året".data, "hela året".data] then
    isoformat ⟨today.year, 1, 1⟩
  else
    match tryFormats (pytrim s) with
    | some d => isoformat d
    | none =>
      match swedishMonths.find? (fun p => containsSub p.1 (pylower (pytrim s))) with
      | some p => isoformat ⟨today.year, p.2, 1⟩
      | none => pytrim s

/-! ### Python `round`

Python's `round(x, n)` rounds half to even.  It is modelled here on exact
rationals (the idealised decimal behaviour; binary-float representation
error is not modelled). -/

/-- Round half to even, to an integer. -/
def rhe (q : ℚ) : ℤ :=
  if Int.fract q < 1 / 2 then ⌊q⌋
  else if 1 / 2 < Int.fract q then ⌊q⌋ + 1
  else if 2 ∣ ⌊q⌋ then ⌊q⌋ else ⌊q⌋ + 1

/-- Python `round(q, n)`. -/
def pyround (q : ℚ) (n : ℕ) : ℚ := (rhe (q * 10 ^ n) : ℚ) / 10 ^ n

/-! ### The journal synthesizer (`/api/driving-journal`)

A `Drive` is one row of the drives query: its day key
(`start_date.strftime("%Y-%m-%d")`), its distance (`distance_km`, with the
source's `or 0` for NULL already applied), and its joined start/end
location labels.  The rows arrive ordered ascending by `start_date`.

The four `random.uniform` draws made for a day are supplied by a map
`U : String → Draws` from the day key, so every theorem quantifies over
all possible outcomes. -/

structure Drive where
  day : String
  dist : ℚ
  startLoc : String
  endLoc : String
deriving DecidableEq, Repr

/-- One uniform draw per threshold: `(u1, u2, u3, u4)` drawn from
`[2,5)`, `[3,7)`, `[4,8)`, `[5,12)` respectively. -/
abbrev Draws := ℚ × ℚ × ℚ × ℚ

/-- Python string comparison: lexicographic by code point. -/
def charListLe : List Char → List Char → Bool
  | [], _ => true
  | _ :: _, [] => false
  | c :: cs, d :: ds =>
    if c.toNat < d.toNat then true
    else if d.toNat < c.toNat then false
    else charListLe cs ds

/-- Python `a <= b` on strings. -/
def strLe (a b : String) : Bool := charListLe a.data b.data

/-- Python `sorted(days.keys())`: the distinct day keys, sorted by Python's
string order.  (The source builds the dict in first-occurrence order and
then sorts; deduplication order is irrelevant after sorting.) -/
def sortedKeys (drives : List Drive) : List String :=
  ((drives.map Drive.day).dedup).insertionSort (fun a b => strLe a b = true)

/-- The bucket `days[day_key]`: the day's drives in arrival order. -/
def bucket (drives : List Drive) (k : String) : List Drive :=
  drives.filter (fun d => d.day == k)

/-- The sum `day_km = sum(float(d['distance_km'] or 0) for d in day_drives)`. -/
def dayKm (ds : List Drive) : ℚ := (ds.map Drive.dist).sum

/-- The origin `home = day_drives[0]['start_location']` (the buckets fed to it are
never empty; the empty case is unreachable). -/
def headStart : List Drive → String
  | [] => ""
  | d :: _ => d.startLoc

/-- The destination loop: `destination = home; for d in day_drives: if
d['end_location'] != home: destination = d['end_location']; break`. -/
def destLoop (home : String) : List Drive → String
  | [] => home
  | d :: ds => if d.endLoc == home then destLoop home ds else d.endLoc

/-- The cumulative random padding (lines 544-550 of the source):
a base draw, plus further draws when the day distance exceeds 80, 150
and 300 km. -/
def extraKm (x : ℚ) (u : Draws) : ℚ :=
  u.1 + (if 80 < x then u.2.1 else 0) + (if 150 < x then u.2.2.1 else 0) +
    (if 300 < x then u.2.2.2 else 0)

/-- The padded distance `total_km_with_extra = day_km + extra_km`. -/
def paddedKm (x : ℚ) (u : Draws) : ℚ := x + extraKm x u

/-- One `JournalEntry` dict (weekday and the constant purpose label are
presentational and carry no logic, so they are not modelled). -/
structure JournalEntry where
  date : String
  start : String
  destination : String
  distance_km_actual : ℚ
  distance_km_journal : ℚ
  distance_mil : ℚ
  reimbursement_sek : ℚ
  num_trips : ℕ
deriving DecidableEq, Repr

/-- The body of the per-day loop for an included day. -/
def mkEntry (rate : ℚ) (k : String) (ds : List Drive) (u : Draws) : JournalEntry :=
  let day_km := dayKm ds
  let home := headStart ds
  let total_km_with_extra := paddedKm day_km u
  let day_mil := pyround (total_km_with_extra / 10) 1
  ⟨k, home, destLoop home ds, pyround day_km 1, pyround total_km_with_extra 1,
   day_mil, pyround (day_mil * rate) 2, ds.length⟩

/-- The `journal_entries` list: iterate the sorted day keys, skip days
summing below 0.5 km, emit one entry per remaining day. -/
def journalEntries (rate : ℚ) (drives : List Drive) (U : String → Draws) :
    List JournalEntry :=
  (sortedKeys drives).filterMap fun k =>
    if dayKm (bucket drives k) < 1 / 2 then none
    else some (mkEntry rate k (bucket drives k) (U k))

/-- The `summary` dict of the journal response. -/
structure JournalSummary where
  total_days : ℕ
  total_mil : ℚ
  total_km : ℚ
  total_reimbursement_sek : ℚ
  rate_per_mil : ℚ
deriving DecidableEq, Repr

/-- The summary: `total_mil` accumulates the per-day `day_mil` values and
`total_cost` the per-day costs; `total_km` is `round(total_mil * 10, 1)`. -/
def journalSummary (rate : ℚ) (drives : List Drive) (U : String → Draws) :
    JournalSummary :=
  let es := journalEntries rate drives U
  ⟨es.length,
   pyround ((es.map JournalEntry.distance_mil).sum) 1,
   pyround ((es.map JournalEntry.distance_mil).sum * 10) 1,
   pyround ((es.map JournalEntry.reimbursement_sek).sum) 2,
   rate⟩

/-! ### `/api/recent-drives` and the client wrapper -/

/-- One row of the recent-drives query (only row identity matters to the
claims; the projected columns are opaque here). -/
structure DriveRow where
  start_date : String
  distance_km : ℚ
deriving DecidableEq, Repr

/-- The endpoint `get_recent_drives`: `ORDER BY d.start_date DESC LIMIT %s`
over the drives table (`db` is the table already ordered descending).
The limit parameter is passed straight into the SQL `LIMIT`. -/
def get_recent_drives (db : List DriveRow) (limit : ℕ) : List DriveRow :=
  db.take limit

/-- The client `Tools.get_recent_drives` cap: `if limit > 50: limit = 50`
before calling the endpoint. -/
def toolLimit (limit : ℕ) : ℕ := if limit > 50 then 50 else limit

/-- The drives the client's `get_recent_drives` receives from the endpoint. -/
def tool_recent_drives (db : List DriveRow) (limit : ℕ) : List DriveRow :=
  get_recent_drives db (toolLimit limit)

/-! ### `Tools._api_call`

The `requests.get` call can succeed (parsed JSON body) or fail in one of
the ways the `except` clauses distinguish; the outcome is reified as a
sum type and `_api_call` becomes a total function on it. -/

/-- How the HTTP round trip inside `_api_call` can end.  `raiseForStatus`
(from `response.raise_for_status()`) and `jsonDecode` (from
`response.json()`) raise exceptions that are not `ConnectionError` or
`Timeout`, so they fall to the generic handler; `otherExc` covers every
remaining exception, carrying its `str(e)`. -/
inductive CallOutcome where
  | success (body : String)
  | connectionError
  | timeout
  | raiseForStatus (msg : String)
  | jsonDecode (msg : String)
  | otherExc (msg : String)
deriving DecidableEq, Repr

/-- The value `_api_call` returns: the parsed body, or a dict
`{"error": msg}`. -/
inductive CallResult where
  | ok (body : String)
  | err (msg : String)
deriving DecidableEq, Repr

def connectionErrorMsg : String :=
  "Could not connect to TeslaMate API. Is the service running?"

def timeoutMsg : String := "TeslaMate API timed out"

/-- The handler `Tools._api_call`: every outcome is converted to a returned value;
nothing propagates as an exception. -/
def api_call : CallOutcome → CallResult
  | .success body => .ok body
  | .connectionError => .err connectionErrorMsg
  | .timeout => .err timeoutMsg
  | .raiseForStatus msg => .err msg
  | .jsonDecode msg => .err msg
  | .otherExc msg => .err msg

/-! ### Concrete fixtures used by witnesses -/

/-- A single 90 km drive on one day. -/
def wDrives1 : List Drive := [⟨"2024-06-01", 90, "Home", "Work"⟩]

/-- Draws `(3, 4, 5, 6)`, inside the four ranges. -/
def wU1 : String → Draws := fun _ => (3, 4, 5, 6)

/-- A two-leg day: the first leg returns to the origin, the second leg
ends elsewhere. -/
def wDrives2 : List Drive :=
  [⟨"2024-06-01", 50, "Home", "Home"⟩, ⟨"2024-06-01", 40, "Home", "Work"⟩]

/-- Draws `(2, 3, 4, 5)`, inside the four ranges. -/
def wU0 : String → Draws := fun _ => (2, 3, 4, 5)

/-- A single 10 km drive on one day. -/
def wDrives3 : List Drive := [⟨"2024-06-01", 10, "A", "B"⟩]

/-! ## Helper lemmas about the journal synthesizer -/

theorem mkEntry_date (rate : ℚ) (k : String) (ds : List Drive) (u : Draws) :
    (mkEntry rate k ds u).date = k := rfl

theorem mem_journalEntries {rate : ℚ} {drives : List Drive} {U : String → Draws}
    {e : JournalEntry} :
    e ∈ journalEntries rate drives U ↔
      ∃ k ∈ sortedKeys drives, ¬ dayKm (bucket drives k) < 1 / 2 ∧
        e = mkEntry rate k (bucket drives k) (U k) := by
  unfold journalEntries
  rw [List.mem_filterMap]
  constructor
  · rintro ⟨k, hk, hf⟩
    by_cases h : dayKm (bucket drives k) < 1 / 2
    · rw [if_pos h] at hf; exact absurd hf (by simp)
    · rw [if_neg h] at hf
      exact ⟨k, hk, h, (Option.some_injective _ hf).symm⟩
  · rintro ⟨k, hk, h, he⟩
    exact ⟨k, hk, by rw [if_neg h, he]⟩

theorem destLoop_eq_find (home : String) (ds : List Drive) :
    destLoop home ds =
      (match ds.find? (fun d => !(d.endLoc == home)) with
        | some d => d.endLoc
        | none => home) := by
  induction ds with
  | nil => rfl
  | cons d ds ih =>
    by_cases h : (d.endLoc == home) = true
    · rw [destLoop, if_pos h, List.find?_cons, h]
      simpa using ih
    · have h' : (d.endLoc == home) = false := by
        simpa using h
      rw [destLoop, if_neg h, List.find?_cons, h']
      rfl

theorem sortedKeys_nodup (drives : List Drive) : (sortedKeys drives).Nodup :=
  (List.perm_insertionSort _ _).symm.nodup (List.nodup_dedup _)

theorem mem_sortedKeys {drives : List Drive} {k : String} :
    k ∈ sortedKeys drives ↔ k ∈ drives.map Drive.day := by
  unfold sortedKeys
  rw [(List.perm_insertionSort _ _).mem_iff, List.mem_dedup]

theorem countP_date_filterMap (c : String → Prop) [DecidablePred c]
    (g : String → JournalEntry) (hg : ∀ x, (g x).date = x) :
    ∀ (ks : List String), ks.Nodup → ∀ k : String,
      ((ks.filterMap fun x => if c x then none else some (g x)).countP
          fun e => e.date == k)
        = if k ∈ ks ∧ ¬ c k then 1 else 0 := by
  intro ks
  induction ks with
  | nil => simp
  | cons a as ih =>
    intro hnd k
    obtain ⟨ha, hnd'⟩ := List.nodup_cons.mp hnd
    rw [List.filterMap_cons]
    by_cases hca : c a
    · rw [if_pos hca, ih hnd' k]
      by_cases hak : k = a
      · subst hak
        simp [hca]
      · simp [List.mem_cons, hak]
    · rw [if_neg hca]
      show List.countP _ (g a :: _) = _
      rw [List.countP_cons, ih hnd' k, hg a]
      by_cases hak : k = a
      · subst hak
        simp [ha, hca]
      · have hbeq : (a == k) = false := by
          apply beq_eq_false_iff_ne.mpr
          exact fun h => hak h.symm
        simp [hbeq, List.mem_cons, hak]

/-! ## Claims -/

/-- Claim C1: for every day included in the journal, the padded distance
(`total_km_with_extra`) equals the day's summed actual distance `x` plus
the cumulative random padding, and for all draw outcomes in their ranges:
if `0 < x ≤ 80` the padded distance lies in `[x+2, x+5)`, and if
`x > 300` it lies in `[x+14, x+32)`.  The entry records the padded
distance rounded to one decimal. -/
theorem C1_padding_bounds (rate : ℚ) (drives : List Drive) (U : String → Draws)
    (e : JournalEntry) (he : e ∈ journalEntries rate drives U)
    (h1 : 2 ≤ (U e.date).1) (h1' : (U e.date).1 < 5)
    (h2 : 3 ≤ (U e.date).2.1) (h2' : (U e.date).2.1 < 7)
    (h3 : 4 ≤ (U e.date).2.2.1) (h3' : (U e.date).2.2.1 < 8)
    (h4 : 5 ≤ (U e.date).2.2.2) (h4' : (U e.date).2.2.2 < 12) :
    (paddedKm (dayKm (bucket drives e.date)) (U e.date)
        = dayKm (bucket drives e.date) + extraKm (dayKm (bucket drives e.date)) (U e.date)) ∧
    (e.distance_km_journal
        = pyround (paddedKm (dayKm (bucket drives e.date)) (U e.date)) 1) ∧
    (0 < dayKm (bucket drives e.date) → dayKm (bucket drives e.date) ≤ 80 →
      dayKm (bucket drives e.date) + 2
          ≤ paddedKm (dayKm (bucket drives e.date)) (U e.date) ∧
        paddedKm (dayKm (bucket drives e.date)) (U e.date)
          < dayKm (bucket drives e.date) + 5) ∧
    (300 < dayKm (bucket drives e.date) →
      dayKm (bucket drives e.date) + 14
          ≤ paddedKm (dayKm (bucket drives e.date)) (U e.date) ∧
        paddedKm (dayKm (bucket drives e.date)) (U e.date)
          < dayKm (bucket drives e.date) + 32) := by
  obtain ⟨k, _, _, hmk⟩ := mem_journalEntries.mp he
  have hdate : e.date = k := by rw [hmk]; rfl
  subst hdate
  refine ⟨rfl, by rw [hmk]; rfl, ?_, ?_⟩
  · intro _ hx80
    have c80 : ¬ (80 : ℚ) < dayKm (bucket drives e.date) := not_lt.mpr hx80
    have c150 : ¬ (150 : ℚ) < dayKm (bucket drives e.date) := by
      apply not_lt.mpr; linarith
    have c300 : ¬ (300 : ℚ) < dayKm (bucket drives e.date) := by
      apply not_lt.mpr; linarith
    unfold paddedKm extraKm
    rw [if_neg c80, if_neg c150, if_neg c300]
    constructor <;> linarith
  · intro hx300
    have c80 : (80 : ℚ) < dayKm (bucket drives e.date) := by linarith
    have c150 : (150 : ℚ) < dayKm (bucket drives e.date) := by linarith
    unfold paddedKm extraKm
    rw [if_pos c80, if_pos c150, if_pos hx300]
    constructor <;> linarith

/-- Witness for C1 at a concrete journal: one day of 90 km with draws
`(3, 4, 5, 6)` — the theorem's hypotheses all hold there. -/
theorem C1_padding_bounds_witness :
    mkEntry 25 "2024-06-01" (bucket wDrives1 "2024-06-01") (wU1 "2024-06-01")
        ∈ journalEntries 25 wDrives1 wU1 ∧
      paddedKm
          (dayKm (bucket wDrives1
            (mkEntry 25 "2024-06-01" (bucket wDrives1 "2024-06-01") (wU1 "2024-06-01")).date))
          (wU1 (mkEntry 25 "2024-06-01" (bucket wDrives1 "2024-06-01") (wU1 "2024-06-01")).date)
        = dayKm (bucket wDrives1
            (mkEntry 25 "2024-06-01" (bucket wDrives1 "2024-06-01") (wU1 "2024-06-01")).date)
          + extraKm
              (dayKm (bucket wDrives1
                (mkEntry 25 "2024-06-01" (bucket wDrives1 "2024-06-01") (wU1 "2024-06-01")).date))
              (wU1 (mkEntry 25 "2024-06-01"
                (bucket wDrives1 "2024-06-01") (wU1 "2024-06-01")).date) := by
  have he : mkEntry 25 "2024-06-01" (bucket wDrives1 "2024-06-01") (wU1 "2024-06-01")
      ∈ journalEntries 25 wDrives1 wU1 := by
    apply mem_journalEntries.mpr
    refine ⟨"2024-06-01", ?_, ?_, rfl⟩
    · rw [show sortedKeys wDrives1 = ["2024-06-01"] from rfl]
      exact List.mem_singleton.mpr rfl
    · rw [show bucket wDrives1 "2024-06-01" = wDrives1 from rfl]
      norm_num [dayKm, wDrives1]
  exact ⟨he, (C1_padding_bounds 25 wDrives1 wU1 _ he
    (by norm_num [wU1]) (by norm_num [wU1]) (by norm_num [wU1]) (by norm_num [wU1])
    (by norm_num [wU1]) (by norm_num [wU1]) (by norm_num [wU1]) (by norm_num [wU1])).1⟩

/-- Claim C3: the summary's `total_km` equals `round(total_mil * 10, 1)`
where `total_mil` is the sum of the per-day `mil` values, and it is not
in general the sum of the days' actual distances (shown by a concrete
journal where the two differ). -/
theorem C3_total_km :
    (∀ (rate : ℚ) (drives : List Drive) (U : String → Draws),
      (journalSummary rate drives U).total_km
        = pyround (((journalEntries rate drives U).map JournalEntry.distance_mil).sum * 10) 1) ∧
    (journalSummary 25 wDrives3 wU1).total_km
        ≠ ((journalEntries 25 wDrives3 wU1).map JournalEntry.distance_km_actual).sum := by
  have h1 : ∀ (rate : ℚ) (drives : List Drive) (U : String → Draws),
      (journalSummary rate drives U).total_km
        = pyround (((journalEntries rate drives U).map JournalEntry.distance_mil).sum * 10) 1 :=
    fun rate drives U => rfl
  refine ⟨h1, ?_⟩
  have hb3 : bucket wDrives3 "2024-06-01" = wDrives3 := rfl
  have hkm : dayKm (bucket wDrives3 "2024-06-01") = 10 := by
    rw [hb3]; norm_num [dayKm, wDrives3]
  have hnm : ¬ dayKm (bucket wDrives3 "2024-06-01") < 1 / 2 := by
    rw [hkm]; norm_num
  have hents : journalEntries 25 wDrives3 wU1
      = [mkEntry 25 "2024-06-01" (bucket wDrives3 "2024-06-01") (wU1 "2024-06-01")] := by
    unfold journalEntries
    rw [show sortedKeys wDrives3 = ["2024-06-01"] from rfl, List.filterMap_cons, if_neg hnm]
    rfl
  have hex : extraKm (dayKm (bucket wDrives3 "2024-06-01")) (wU1 "2024-06-01") = 3 := by
    rw [hkm]; unfold extraKm wU1
    norm_num
  have hfr13 : Int.fract ((13 : ℚ)) < 1 / 2 := by
    unfold Int.fract; norm_num
  have hfr100 : Int.fract ((100 : ℚ)) < 1 / 2 := by
    unfold Int.fract; norm_num
  have hfr130 : Int.fract ((130 : ℚ)) < 1 / 2 := by
    unfold Int.fract; norm_num
  have hmil : (mkEntry 25 "2024-06-01" (bucket wDrives3 "2024-06-01")
      (wU1 "2024-06-01")).distance_mil = 13 / 10 := by
    show pyround (paddedKm (dayKm (bucket wDrives3 "2024-06-01")) (wU1 "2024-06-01") / 10) 1
        = 13 / 10
    unfold paddedKm
    rw [hex, hkm]
    unfold pyround rhe
    rw [show ((10 : ℚ) + 3) / 10 * 10 ^ 1 = 13 by norm_num, if_pos hfr13]
    norm_num
  have hact : (mkEntry 25 "2024-06-01" (bucket wDrives3 "2024-06-01")
      (wU1 "2024-06-01")).distance_km_actual = 10 := by
    show pyround (dayKm (bucket wDrives3 "2024-06-01")) 1 = 10
    rw [hkm]
    unfold pyround rhe
    rw [show (10 : ℚ) * 10 ^ 1 = 100 by norm_num, if_pos hfr100]
    norm_num
  rw [h1, hents]
  simp only [List.map_cons, List.map_nil, List.sum_cons, List.sum_nil, hmil, hact]
  rw [show ((13 : ℚ) / 10 + 0) * 10 = 13 by norm_num]
  unfold pyround rhe
  rw [show (13 : ℚ) * 10 ^ 1 = 130 by norm_num, if_pos hfr130]
  norm_num

/-- Claim C4: every journal entry's origin is the start location of the
day's first drive, and its destination is the end location of the first
drive of the day whose end location differs from the origin — or the
origin itself when no drive's end location differs. -/
theorem C4_origin_destination (rate : ℚ) (drives : List Drive) (U : String → Draws)
    (e : JournalEntry) (he : e ∈ journalEntries rate drives U) :
    e.start = headStart (bucket drives e.date) ∧
    e.destination =
      (match (bucket drives e.date).find? (fun d => !(d.endLoc == e.start)) with
        | some d => d.endLoc
        | none => e.start) := by
  obtain ⟨k, _, _, hmk⟩ := mem_journalEntries.mp he
  have hdate : e.date = k := by rw [hmk]; rfl
  subst hdate
  have hstart : e.start = headStart (bucket drives e.date) := by rw [hmk]; rfl
  refine ⟨hstart, ?_⟩
  have hdest : e.destination
      = destLoop (headStart (bucket drives e.date)) (bucket drives e.date) := by
    rw [hmk]; rfl
  rw [hdest, hstart, destLoop_eq_find]

/-- Witness for C4: a two-leg day where the second leg's end differs from
the origin. -/
theorem C4_origin_destination_witness :
    mkEntry 25 "2024-06-01" (bucket wDrives2 "2024-06-01") (wU0 "2024-06-01")
        ∈ journalEntries 25 wDrives2 wU0 ∧
      (mkEntry 25 "2024-06-01" (bucket wDrives2 "2024-06-01") (wU0 "2024-06-01")).start
        = headStart (bucket wDrives2
            (mkEntry 25 "2024-06-01" (bucket wDrives2 "2024-06-01") (wU0 "2024-06-01")).date) ∧
      (mkEntry 25 "2024-06-01" (bucket wDrives2 "2024-06-01") (wU0 "2024-06-01")).destination
        = (match (bucket wDrives2
              (mkEntry 25 "2024-06-01" (bucket wDrives2 "2024-06-01") (wU0 "2024-06-01")).date).find?
              (fun d => !(d.endLoc ==
                (mkEntry 25 "2024-06-01" (bucket wDrives2 "2024-06-01") (wU0 "2024-06-01")).start)) with
            | some d => d.endLoc
            | none =>
              (mkEntry 25 "2024-06-01" (bucket wDrives2 "2024-06-01") (wU0 "2024-06-01")).start) := by
  have he : mkEntry 25 "2024-06-01" (bucket wDrives2 "2024-06-01") (wU0 "2024-06-01")
      ∈ journalEntries 25 wDrives2 wU0 := by
    apply mem_journalEntries.mpr
    refine ⟨"2024-06-01", ?_, ?_, rfl⟩
    · rw [show sortedKeys wDrives2 = ["2024-06-01"] from rfl]
      exact List.mem_singleton.mpr rfl
    · rw [show bucket wDrives2 "2024-06-01" = wDrives2 from rfl]
      norm_num [dayKm, wDrives2]
  exact ⟨he, C4_origin_destination 25 wDrives2 wU0 _ he⟩

/-- Claim C2: a calendar day yields a journal entry if and only if it is a
day of some drive in range and its summed distance is not below 0.5 km,
and then it yields exactly one entry; concretely, a 0.4 km day yields no
entry and a 0.5 km day yields exactly one. -/
theorem C2_day_threshold :
    (∀ (rate : ℚ) (drives : List Drive) (U : String → Draws) (k : String),
      ((journalEntries rate drives U).countP fun e => e.date == k)
        = if k ∈ drives.map Drive.day ∧ ¬ dayKm (bucket drives k) < 1 / 2 then 1 else 0) ∧
    journalEntries 25 [⟨"2024-06-02", 2/5, "A", "B"⟩] wU0 = [] ∧
    ((journalEntries 25 [⟨"2024-06-03", 1/2, "A", "B"⟩] wU0).countP
        fun e => e.date == "2024-06-03") = 1 := by
  refine ⟨?_, ?_, ?_⟩
  · intro rate drives U k
    unfold journalEntries
    rw [countP_date_filterMap (fun x => dayKm (bucket drives x) < 1 / 2)
        (fun x => mkEntry rate x (bucket drives x) (U x)) (fun x => rfl)
        (sortedKeys drives) (sortedKeys_nodup drives) k]
    simp only [mem_sortedKeys]
  · unfold journalEntries
    rw [show sortedKeys [⟨"2024-06-02", 2/5, "A", "B"⟩] = ["2024-06-02"] from rfl,
      List.filterMap_cons]
    rw [if_pos (by
      rw [show bucket [(⟨"2024-06-02", 2/5, "A", "B"⟩ : Drive)] "2024-06-02"
          = [⟨"2024-06-02", 2/5, "A", "B"⟩] from rfl]
      norm_num [dayKm])]
    rfl
  · unfold journalEntries
    rw [show sortedKeys [⟨"2024-06-03", 1/2, "A", "B"⟩] = ["2024-06-03"] from rfl,
      List.filterMap_cons]
    rw [if_neg (by
      rw [show bucket [(⟨"2024-06-03", 1/2, "A", "B"⟩ : Drive)] "2024-06-03"
          = [⟨"2024-06-03", 1/2, "A", "B"⟩] from rfl]
      norm_num [dayKm])]
    rfl

/-- Claim C8 counterexample: the `/api/recent-drives` endpoint itself does
not cap the limit — with 51 rows in the drives table and `limit = 51` the
response contains 51 drives. -/
theorem C8_endpoint_no_cap :
    (get_recent_drives (List.replicate 51 ⟨"", 0⟩) 51).length = 51 := by
  decide

/-- Claim C8 (amended): the 50-drive cap is enforced by the conversational
client, which lowers any larger `limit` to 50 before calling the endpoint;
through the client the response never contains more than 50 drives. -/
theorem C8_tool_cap (db : List DriveRow) (limit : ℕ) :
    (tool_recent_drives db limit).length ≤ 50 := by
  unfold tool_recent_drives get_recent_drives toolLimit
  rw [List.length_take]
  by_cases h : limit > 50
  · rw [if_pos h]; exact le_trans (min_le_left _ _) (by norm_num)
  · rw [if_neg h]; exact le_trans (min_le_left _ _) (by omega)

/-- Claim C9: the client's `_api_call` never raises: a connection failure
yields the fixed connection message, a timeout the fixed timeout message,
and every other exception its string form under the error key; every
result is either the parsed body or one of those three failure shapes. -/
theorem C9_api_call_shapes :
    (api_call .connectionError = .err connectionErrorMsg) ∧
    (api_call .timeout = .err timeoutMsg) ∧
    (∀ m, api_call (.raiseForStatus m) = .err m) ∧
    (∀ m, api_call (.jsonDecode m) = .err m) ∧
    (∀ m, api_call (.otherExc m) = .err m) ∧
    (∀ o, (∃ b, o = .success b ∧ api_call o = .ok b) ∨ ∃ m, api_call o = .err m) ∧
    (∀ o m, api_call o = .err m →
      m = connectionErrorMsg ∨ m = timeoutMsg ∨
        o = .raiseForStatus m ∨ o = .jsonDecode m ∨ o = .otherExc m) := by
  refine ⟨rfl, rfl, fun m => rfl, fun m => rfl, fun m => rfl, ?_, ?_⟩
  · intro o
    cases o with
    | success b => exact Or.inl ⟨b, rfl, rfl⟩
    | connectionError => exact Or.inr ⟨_, rfl⟩
    | timeout => exact Or.inr ⟨_, rfl⟩
    | raiseForStatus m => exact Or.inr ⟨m, rfl⟩
    | jsonDecode m => exact Or.inr ⟨m, rfl⟩
    | otherExc m => exact Or.inr ⟨m, rfl⟩
  · intro o m h
    cases o with
    | success b => exact absurd h (by simp [api_call])
    | connectionError =>
      exact Or.inl (by injection h.symm)
    | timeout =>
      exact Or.inr (Or.inl (by injection h.symm))
    | raiseForStatus m' =>
      have : m' = m := by injection h
      exact Or.inr (Or.inr (Or.inl (by rw [this])))
    | jsonDecode m' =>
      have : m' = m := by injection h
      exact Or.inr (Or.inr (Or.inr (Or.inl (by rw [this]))))
    | otherExc m' =>
      have : m' = m := by injection h
      exact Or.inr (Or.inr (Or.inr (Or.inr (by rw [this]))))

/-! ## Helper lemmas about characters, rendering and parsing of dates -/

theorem digitChar_lt_ten {k : ℕ} (h : k < 10) :
    (Nat.digitChar k).isDigit = true ∧ digitVal (Nat.digitChar k) = k ∧
      isSpace (Nat.digitChar k) = false ∧
      toLowerChar (Nat.digitChar k) = Nat.digitChar k ∧
      (Nat.digitChar k).toNat ≤ 57 := by
  interval_cases k <;> exact ⟨rfl, rfl, rfl, rfl, by decide⟩

theorem yearSplits_pad4 {y : ℕ} (h : y ≤ 9999) (rest : List Char) :
    yearSplits (pad4 y ++ rest) = [(y, rest)] := by
  have h1 : y / 1000 % 10 < 10 := Nat.mod_lt _ (by norm_num)
  have h2 : y / 100 % 10 < 10 := Nat.mod_lt _ (by norm_num)
  have h3 : y / 10 % 10 < 10 := Nat.mod_lt _ (by norm_num)
  have h4 : y % 10 < 10 := Nat.mod_lt _ (by norm_num)
  show yearSplits (Nat.digitChar (y / 1000 % 10) :: Nat.digitChar (y / 100 % 10)
      :: Nat.digitChar (y / 10 % 10) :: Nat.digitChar (y % 10) :: rest) = [(y, rest)]
  simp only [yearSplits, (digitChar_lt_ten h1).1, (digitChar_lt_ten h2).1,
    (digitChar_lt_ten h3).1, (digitChar_lt_ten h4).1, Bool.and_self, Bool.and_true,
    Bool.true_and, if_true, (digitChar_lt_ten h1).2.1, (digitChar_lt_ten h2).2.1,
    (digitChar_lt_ten h3).2.1, (digitChar_lt_ten h4).2.1]
  have : 1000 * (y / 1000 % 10) + 100 * (y / 100 % 10) + 10 * (y / 10 % 10) + y % 10 = y := by
    omega
  rw [this]

theorem monthSplits_pad2 {m : ℕ} (h1 : 1 ≤ m) (h2 : m ≤ 12) (rest : List Char) :
    ∃ t, monthSplits (pad2 m ++ rest) = (m, rest) :: t := by
  interval_cases m <;> exact ⟨_, rfl⟩

theorem daySplits_pad2 {d : ℕ} (h1 : 1 ≤ d) (h2 : d ≤ 31) (rest : List Char) :
    ∃ t, daySplits (pad2 d ++ rest) = (d, rest) :: t := by
  interval_cases d <;> exact ⟨_, rfl⟩

theorem daysInMonth_le_31 (y m : ℕ) : daysInMonth y m ≤ 31 := by
  unfold daysInMonth
  split_ifs <;> omega

theorem findSome?_singleton {α β : Type} (f : α → Option β) (a : α) :
    List.findSome? f [a] = f a := by
  rw [List.findSome?_cons]
  cases h : f a <;> simp [h]

theorem findSome?_cons_of_some {α β : Type} {f : α → Option β} {a : α} {l : List α}
    {b : β} (h : f a = some b) : List.findSome? f (a :: l) = some b := by
  rw [List.findSome?_cons, h]

theorem strptimeYmd_isoformat {d : Date} (hd : Valid d) :
    strptimeYmd '-' (isoformat d) = some d := by
  obtain ⟨hy1, hy2, hm1, hm2, hd1, hd2⟩ := hd
  have hd31 : d.day ≤ 31 := le_trans hd2 (daysInMonth_le_31 _ _)
  obtain ⟨tm, htm⟩ := monthSplits_pad2 hm1 hm2 ('-' :: pad2 d.day)
  obtain ⟨td, htd⟩ := daySplits_pad2 hd1 hd31 []
  show strptimeYmd '-' (pad4 d.year ++ ('-' :: (pad2 d.month ++ ('-' :: pad2 d.day))))
      = some d
  unfold strptimeYmd
  rw [yearSplits_pad4 hy2, findSome?_singleton]
  rw [show sepSplits '-' ('-' :: (pad2 d.month ++ ('-' :: pad2 d.day)))
      = [pad2 d.month ++ ('-' :: pad2 d.day)] from rfl]
  rw [findSome?_singleton]
  rw [htm]
  apply findSome?_cons_of_some
  rw [show sepSplits '-' ('-' :: pad2 d.day) = [pad2 d.day] from rfl, findSome?_singleton]
  rw [show pad2 d.day = pad2 d.day ++ [] from (List.append_nil _).symm, htd]
  apply findSome?_cons_of_some
  rw [if_pos rfl]
  unfold mkDate
  rw [if_pos ⟨hy1, hy2, hm1, hm2, hd1, hd2⟩]

theorem tryFormats_isoformat {d : Date} (hd : Valid d) :
    tryFormats (isoformat d) = some d := by
  unfold tryFormats
  rw [strptimeYmd_isoformat hd]

theorem dropWhile_eq_self_of_not {l : List Char} (h : ∀ c ∈ l, isSpace c = false) :
    l.dropWhile isSpace = l := by
  cases l with
  | nil => rfl
  | cons c cs =>
    rw [List.dropWhile_cons]
    simp [h c (List.mem_cons_self c cs)]

theorem pytrim_eq_self {l : List Char} (h : ∀ c ∈ l, isSpace c = false) :
    pytrim l = l := by
  unfold pytrim
  have h2 : ∀ c ∈ (l.dropWhile isSpace).reverse, isSpace c = false := by
    intro c hc
    rw [dropWhile_eq_self_of_not h] at hc
    exact h c (List.mem_reverse.mp hc)
  rw [dropWhile_eq_self_of_not h2, List.reverse_reverse, dropWhile_eq_self_of_not h]

theorem pylower_eq_self {l : List Char} (h : ∀ c ∈ l, toLowerChar c = c) :
    pylower l = l :=
  (List.map_congr_left h).trans (List.map_id l)

theorem mem_isoformat {c : Char} {d : Date} (hc : c ∈ isoformat d) :
    isSpace c = false ∧ toLowerChar c = c ∧ c.toNat ≤ 57 := by
  have h10 : ∀ k : ℕ, k % 10 < 10 := fun k => Nat.mod_lt _ (by norm_num)
  simp only [isoformat, pad4, pad2, List.cons_append, List.nil_append, List.mem_cons,
    List.not_mem_nil, or_false] at hc
  rcases hc with rfl | rfl | rfl | rfl | rfl | rfl | rfl | rfl | rfl | rfl
  all_goals first
    | decide
    | exact ⟨(digitChar_lt_ten (h10 _)).2.2.1, (digitChar_lt_ten (h10 _)).2.2.2.1,
        (digitChar_lt_ten (h10 _)).2.2.2.2⟩

theorem pytrim_isoformat (d : Date) : pytrim (isoformat d) = isoformat d :=
  pytrim_eq_self (fun _ hc => (mem_isoformat hc).1)

theorem pylower_isoformat (d : Date) : pylower (isoformat d) = isoformat d :=
  pylower_eq_self (fun _ hc => (mem_isoformat hc).2.1)

theorem isoformat_ne_nil (d : Date) : ¬ isoformat d = [] := by
  simp [isoformat, pad4]

theorem isoformat_not_mem {d : Date} {L : List (List Char)}
    (hL : L.all (fun w => decide (97 ≤ (w.headD ' ').toNat)) = true) :
    isoformat d ∉ L := by
  intro hmem
  have h1 := of_decide_eq_true (List.all_eq_true.mp hL _ hmem)
  have h2 : (isoformat d).headD ' ' = Nat.digitChar (d.year / 1000 % 10) := rfl
  rw [h2] at h1
  have h3 := (digitChar_lt_ten (Nat.mod_lt (d.year / 1000) (by norm_num))).2.2.2.2
  omega

theorem parse_date_isoformat (d : Date) (hd : Valid d) (t : Date) :
    parse_date (isoformat d) t = isoformat d := by
  unfold parse_date
  rw [pytrim_isoformat, pylower_isoformat]
  rw [if_neg (isoformat_ne_nil d),
    if_neg (isoformat_not_mem (by decide)), if_neg (isoformat_not_mem (by decide)),
    if_neg (isoformat_not_mem (by decide)), if_neg (isoformat_not_mem (by decide)),
    if_neg (isoformat_not_mem (by decide)), if_neg (isoformat_not_mem (by decide))]
  rw [tryFormats_isoformat hd]

/-- Claim C5: the resolver is the identity on valid zero-padded ISO dates,
and normalizes the other accepted literal formats in the fixed pattern
order, so "15/03/2024" and "20240315" both resolve to "2024-03-15". -/
theorem C5_resolver :
    (∀ d : Date, Valid d → ∀ t : Date, parse_date (isoformat d) t = isoformat d) ∧
    (∀ t : Date, parse_date "15/03/2024".data t = "2024-03-15".data) ∧
    (∀ t : Date, parse_date "20240315".data t = "2024-03-15".data) :=
  ⟨fun d hd t => parse_date_isoformat d hd t, fun _ => rfl, fun _ => rfl⟩

/-- Witness for C5: the identity at the valid date 2024-03-15. -/
theorem C5_resolver_witness :
    Valid ⟨2024, 3, 15⟩ ∧
      parse_date (isoformat ⟨2024, 3, 15⟩) ⟨2024, 6, 1⟩ = isoformat ⟨2024, 3, 15⟩ :=
  ⟨by decide, C5_resolver.1 ⟨2024, 3, 15⟩ (by decide) ⟨2024, 6, 1⟩⟩

/-- Claim C6: empty, whitespace-only, "today" and "idag" inputs resolve to
the reference date; "igår" and "yesterday" resolve to the reference date
minus one day; an empty or whitespace-only input never errors. -/
theorem C6_today_yesterday (t : Date) :
    (∀ s : List Char, (∀ c ∈ s, isSpace c = true) → parse_date s t = isoformat t) ∧
    parse_date [] t = isoformat t ∧
    parse_date "   ".data t = isoformat t ∧
    parse_date "today".data t = isoformat t ∧
    parse_date "idag".data t = isoformat t ∧
    parse_date "igår".data t = isoformat (prevDay t) ∧
    parse_date "yesterday".data t = isoformat (prevDay t) := by
  refine ⟨?_, rfl, rfl, rfl, rfl, rfl, rfl⟩
  intro s hs
  have h1 : pytrim s = [] := by
    unfold pytrim
    rw [List.dropWhile_eq_nil_iff.mpr hs]
    rfl
  unfold parse_date
  rw [if_pos h1]

/-- Witness for C6: a concrete whitespace-only input. -/
theorem C6_today_yesterday_witness :
    (∀ c ∈ "  ".data, isSpace c = true) ∧
      parse_date "  ".data ⟨2024, 6, 1⟩ = isoformat ⟨2024, 6, 1⟩ :=
  ⟨by decide, (C6_today_yesterday ⟨2024, 6, 1⟩).1 "  ".data (by decide)⟩

/-- Claim C7: the resolver is total; when the trimmed input matches no
relative term, none of the four literal date patterns, and contains no
Swedish month-name substring, it is returned unmodified. -/
theorem C7_passthrough (s : List Char) (t : Date)
    (h0 : ¬ pytrim s = [])
    (h1 : pylower (pytrim s) ∉ ["idag".data, "today".data])
    (h2 : pylower (pytrim s) ∉ ["igår".data, "yesterday".data])
    (h3 : pylower (pytrim s) ∉
      ["senaste veckan".data, "last week".data, "förra veckan".data,
       "denna vecka".data, "this week".data])
    (h4 : pylower (pytrim s) ∉
      ["senaste månaden".data, "last month".data, "denna månad".data,
       "this month".data, "denna månaden".data])
    (h5 : pylower (pytrim s) ∉ ["förra månaden".data, "previous month".data])
    (h6 : pylower (pytrim s) ∉
      ["i år".data, "this year".data, "året".data, "hela året".data])
    (h7 : tryFormats (pytrim s) = none)
    (h8 : swedishMonths.find? (fun p => containsSub p.1 (pylower (pytrim s))) = none) :
    parse_date s t = pytrim s := by
  unfold parse_date
  rw [if_neg h0, if_neg h1, if_neg h2, if_neg h3, if_neg h4, if_neg h5, if_neg h6, h7, h8]

/-- Witness for C7: a concrete input that parses under no rule. -/
theorem C7_passthrough_witness :
    (¬ pytrim "gibberish".data = []) ∧
      tryFormats (pytrim "gibberish".data) = none ∧
      parse_date "gibberish".data ⟨2024, 6, 1⟩ = pytrim "gibberish".data :=
  ⟨by decide, by decide,
    C7_passthrough "gibberish".data ⟨2024, 6, 1⟩ (by decide) (by decide) (by decide)
      (by decide) (by decide) (by decide) (by decide) (by decide) (by decide)⟩

/-- Claim C10: "last month", "senaste månaden", "denna månad",
"denna månaden" and "this month" all resolve to the first day of the
current month, while "previous month" and "förra månaden" resolve to the
first day of the previous month; the two differ whenever the reference
date's month is not January. -/
theorem C10_month_terms (t : Date) :
    parse_date "last month".data t = isoformat ⟨t.year, t.month, 1⟩ ∧
    parse_date "senaste månaden".data t = isoformat ⟨t.year, t.month, 1⟩ ∧
    parse_date "denna månad".data t = isoformat ⟨t.year, t.month, 1⟩ ∧
    parse_date "denna månaden".data t = isoformat ⟨t.year, t.month, 1⟩ ∧
    parse_date "this month".data t = isoformat ⟨t.year, t.month, 1⟩ ∧
    parse_date "previous month".data t = isoformat (firstOfPrevMonth t) ∧
    parse_date "förra månaden".data t = isoformat (firstOfPrevMonth t) ∧
    (Valid t → t.month ≠ 1 →
      parse_date "last month".data t ≠ parse_date "previous month".data t) := by
  refine ⟨rfl, rfl, rfl, rfl, rfl, rfl, rfl, ?_⟩
  intro hv hm1
  obtain ⟨_, _, hmlo, hmhi, _, _⟩ := hv
  have hm2 : 2 ≤ t.month := by omega
  have hfp : firstOfPrevMonth t = ⟨t.year, t.month - 1, 1⟩ := by
    unfold firstOfPrevMonth prevDay
    rw [if_neg (show ¬ (1 : ℕ) < 1 by norm_num),
      if_pos (show (1 : ℕ) < t.month by omega)]
  intro heq
  rw [show parse_date "last month".data t = isoformat ⟨t.year, t.month, 1⟩ from rfl,
    show parse_date "previous month".data t = isoformat (firstOfPrevMonth t) from rfl,
    hfp] at heq
  simp only [isoformat, pad4, pad2, List.cons_append, List.nil_append,
    List.cons.injEq, and_true, true_and] at heq
  obtain ⟨e1, e2⟩ := heq
  have q1 : digitVal (Nat.digitChar (t.month / 10 % 10))
      = digitVal (Nat.digitChar ((t.month - 1) / 10 % 10)) := by rw [e1]
  have q2 : digitVal (Nat.digitChar (t.month % 10))
      = digitVal (Nat.digitChar ((t.month - 1) % 10)) := by rw [e2]
  rw [(digitChar_lt_ten (Nat.mod_lt _ (by norm_num))).2.1,
    (digitChar_lt_ten (Nat.mod_lt _ (by norm_num))).2.1] at q1
  rw [(digitChar_lt_ten (Nat.mod_lt _ (by norm_num))).2.1,
    (digitChar_lt_ten (Nat.mod_lt _ (by norm_num))).2.1] at q2
  omega

/-- Witness for C10: the divergence at reference date 2024-06-01. -/
theorem C10_month_terms_witness :
    Valid ⟨2024, 6, 1⟩ ∧ (⟨2024, 6, 1⟩ : Date).month ≠ 1 ∧
      parse_date "last month".data ⟨2024, 6, 1⟩
        ≠ parse_date "previous month".data ⟨2024, 6, 1⟩ :=
  ⟨by decide, by decide,
    (C10_month_terms ⟨2024, 6, 1⟩).2.2.2.2.2.2.2 (by decide) (by decide)⟩

/-- Witness for C9: the generic handler at a concrete exception message. -/
theorem C9_api_call_shapes_witness :
    api_call (.otherExc "boom") = .err "boom" ∧
      (("boom" : String) = connectionErrorMsg ∨ ("boom" : String) = timeoutMsg ∨
        CallOutcome.otherExc "boom" = .raiseForStatus "boom" ∨
        CallOutcome.otherExc "boom" = .jsonDecode "boom" ∨
        CallOutcome.otherExc "boom" = .otherExc "boom") :=
  ⟨rfl, C9_api_call_shapes.2.2.2.2.2.2 (.otherExc "boom") "boom" rfl⟩

end TeslaMate
